import Mathlib

/-!
Shallow embedding of `minimal_demo.py` (QuecPython minimal demo), a UART↔TCP
relay with an LED activity indicator.

The script's methods are modelled as pure functions from the outcomes of the
external calls they make (socket receive/send results, UART buffer contents,
thread liveness queries) to the trace of observable calls they perform, plus
explicit state passing for the fields of the `Demo` object (`__sock`,
`__led_blink_thread_id`).  Exceptions of the vendor APIs are modelled with
`Option` results (`none` = the call raised).
-/

/-- Byte sequences are modelled as lists of naturals, one per byte. -/
abbrev Bytes := List Nat

/-- Observable events emitted by the modelled methods, in program order:
UART driver calls (`any`, `read`, `write`), socket calls (`send`, `recv`),
`self.blink` requests, and the logger calls the script makes. -/
inductive Ev
  | uartAny
  | uartRead (n : Nat)
  | logDebugRead (data : Bytes)
  | sockSend (data : Bytes)
  | logErrorSend
  | blinkReq (onMs offMs count : Nat)
  | logDebugSent (n : Nat)
  | recv
  | logDebugRecv (data : Bytes)
  | uartWrite (data : Bytes)
  | logErrorWrite
  | logDebugWrote (n : Nat)
  | logCritical
deriving Repr, DecidableEq

/-- Model of `Demo.__uart_cb` (lines 78-100 of `minimal_demo.py`).
`buffered` is the byte sequence currently unread on the UART: `uart.any()`
returns its length and `uart.read n` returns its first `n` bytes.
`sendResult data` is the outcome of `self.__sock.send(data)`: `some n` means
the call returned `n`, `none` means it raised (broken link, or `__sock` still
`None`).  The callback drains the buffer, logs it, sends it; on a send
exception it logs an error, otherwise it calls `self.blink(50, 50, 20)` and
then logs the sent size. -/
def uart_cb (buffered : Bytes) (sendResult : Bytes → Option Nat) : List Ev :=
  let unread_data_size := buffered.length
  let data := buffered.take unread_data_size
  Ev.uartAny :: Ev.uartRead unread_data_size :: Ev.logDebugRead data ::
    match sendResult data with
    | none => [Ev.sockSend data, Ev.logErrorSend]
    | some length => [Ev.sockSend data, Ev.blinkReq 50 50 20, Ev.logDebugSent length]

/-- Outcome of one iteration of the socket reader loop, as delivered by the
external socket and UART: either `recv(1024)` returns `data` and the
subsequent `uart.write(data)` returns `some n` or raises (`none`), or
`recv(1024)` raises an exception, characterised by whether it is an `OSError`
and by its `args[0]` errno. -/
inductive IterOutcome
  | recvOk (data : Bytes) (writeResult : Option Nat)
  | recvErr (isOSError : Bool) (errno : Nat)
deriving Repr, DecidableEq

/-- Model of `Demo.__sock_recv_thread_worker` (lines 120-142).  The `while
True` loop is run against a finite script of iteration outcomes (the
observation horizon); it emits one `recv` event per iteration it executes.
A successful `recv` logs the data and writes it to the UART (the inner
`try/except` turns a write exception into an error log); an `OSError` with
errno 110 is a read timeout and the loop continues; any other exception logs
critical and breaks, so nothing of the remaining script is executed. -/
def sock_recv_thread_worker : List IterOutcome → List Ev
  | [] => []
  | IterOutcome.recvOk data w :: rest =>
      Ev.recv :: Ev.logDebugRecv data :: Ev.uartWrite data ::
        ((match w with
          | none => [Ev.logErrorWrite]
          | some length => [Ev.logDebugWrote length]) ++
         sock_recv_thread_worker rest)
  | IterOutcome.recvErr isOS errno :: rest =>
      if isOS && errno == 110 then
        Ev.recv :: sock_recv_thread_worker rest
      else
        [Ev.recv, Ev.logCritical]

/-- The arguments of the `sock.send` calls in a trace, in order. -/
def sendCalls : List Ev → List Bytes
  | [] => []
  | Ev.sockSend d :: rest => d :: sendCalls rest
  | _ :: rest => sendCalls rest

/-- The arguments of the `uart.write` calls in a trace, in order. -/
def writeCalls : List Ev → List Bytes
  | [] => []
  | Ev.uartWrite d :: rest => d :: writeCalls rest
  | _ :: rest => writeCalls rest

/-- The arguments of the `self.blink` requests in a trace, in order. -/
def blinkReqs : List Ev → List (Nat × Nat × Nat)
  | [] => []
  | Ev.blinkReq a b c :: rest => (a, b, c) :: blinkReqs rest
  | _ :: rest => blinkReqs rest

/-- How many `sock.recv` calls a trace contains. -/
def recvCount : List Ev → Nat
  | [] => 0
  | Ev.recv :: rest => recvCount rest + 1
  | _ :: rest => recvCount rest

/-- An iteration outcome is fatal for the reader loop exactly when `recv`
raised something other than an `OSError` with errno 110. -/
def isFatal : IterOutcome → Bool
  | IterOutcome.recvOk _ _ => false
  | IterOutcome.recvErr isOS errno => !(isOS && errno == 110)

/-- C1: for every byte sequence delivered by a UART data notification, the
callback calls the socket's `send` exactly once, with exactly the drained
bytes and no framing added — whatever the outcome of the send. -/
theorem uart_cb_sends_exactly_once (buffered : Bytes) (sendResult : Bytes → Option Nat) :
    sendCalls (uart_cb buffered sendResult) = [buffered] := by
  unfold uart_cb
  simp only [List.take_length]
  cases sendResult buffered <;> simp [sendCalls]

/-- C2: in every reader-loop iteration whose `recv` returns a byte sequence,
the loop calls the UART's `write` exactly once with exactly those bytes,
whether or not the write itself raises. -/
theorem reader_writes_exactly_once (data : Bytes) (w : Option Nat) (rest : List IterOutcome) :
    writeCalls (sock_recv_thread_worker (IterOutcome.recvOk data w :: rest))
      = data :: writeCalls (sock_recv_thread_worker rest) := by
  cases w <;> simp [sock_recv_thread_worker, writeCalls]

/-- C3: a timeout-class receive error (`OSError` with errno 110) never
terminates the reader loop — the loop goes on to process the rest of the
script — while any other receive error produces exactly the one `recv` call
of its own iteration plus a critical log and terminates the loop permanently:
no event of any later iteration occurs, whatever the rest of the script. -/
theorem reader_error_handling (rest : List IterOutcome) :
    sock_recv_thread_worker (IterOutcome.recvErr true 110 :: rest)
        = Ev.recv :: sock_recv_thread_worker rest
  ∧ ∀ (isOS : Bool) (errno : Nat) (rest2 : List IterOutcome),
      (isOS && errno == 110) = false →
      sock_recv_thread_worker (IterOutcome.recvErr isOS errno :: rest2)
        = [Ev.recv, Ev.logCritical] := by
  constructor
  · simp [sock_recv_thread_worker]
  · intro isOS errno rest2 h
    simp [sock_recv_thread_worker, h]

/-- Witness for `reader_error_handling` at concrete scripts: a timeout error
followed by nothing, and a non-OSError exception followed by a further
iteration that is indeed never executed. -/
theorem reader_error_handling_witness :
    sock_recv_thread_worker [IterOutcome.recvErr true 110]
        = Ev.recv :: sock_recv_thread_worker []
  ∧ sock_recv_thread_worker [IterOutcome.recvErr false 0, IterOutcome.recvOk [] (some 0)]
        = [Ev.recv, Ev.logCritical] :=
  ⟨(reader_error_handling []).1,
   (reader_error_handling []).2 false 0 [IterOutcome.recvOk [] (some 0)] (by decide)⟩

/-- C5: the callback issues a blink request with parameters (50, 50, 20) if
and only if the socket send succeeds; on success the trace is exactly one
send, one blink request, then the sent-size debug log; on a send failure the
trace after the send is only the error log — no blink request. -/
theorem uart_cb_blink_iff_send_success (buffered : Bytes) (sendResult : Bytes → Option Nat) :
    (∀ n, sendResult buffered = some n →
        uart_cb buffered sendResult
          = [Ev.uartAny, Ev.uartRead buffered.length, Ev.logDebugRead buffered,
             Ev.sockSend buffered, Ev.blinkReq 50 50 20, Ev.logDebugSent n])
  ∧ (sendResult buffered = none →
        uart_cb buffered sendResult
          = [Ev.uartAny, Ev.uartRead buffered.length, Ev.logDebugRead buffered,
             Ev.sockSend buffered, Ev.logErrorSend]) := by
  constructor
  · intro n h
    unfold uart_cb
    simp only [List.take_length, h]
  · intro h
    unfold uart_cb
    simp only [List.take_length, h]

/-- Witness for `uart_cb_blink_iff_send_success` on the bytes of `b"hello"`
with a send that reports every byte sent, and on a failing send. -/
theorem uart_cb_blink_iff_send_success_witness :
    uart_cb [104, 101, 108, 108, 111] (fun b => some b.length)
      = [Ev.uartAny, Ev.uartRead 5, Ev.logDebugRead [104, 101, 108, 108, 111],
         Ev.sockSend [104, 101, 108, 108, 111], Ev.blinkReq 50 50 20, Ev.logDebugSent 5]
  ∧ uart_cb [104, 101, 108, 108, 111] (fun _ => none)
      = [Ev.uartAny, Ev.uartRead 5, Ev.logDebugRead [104, 101, 108, 108, 111],
         Ev.sockSend [104, 101, 108, 108, 111], Ev.logErrorSend] :=
  ⟨(uart_cb_blink_iff_send_success [104, 101, 108, 108, 111] (fun b => some b.length)).1 5 rfl,
   (uart_cb_blink_iff_send_success [104, 101, 108, 108, 111] (fun _ => none)).2 rfl⟩

/-- C10: when the notification fires with zero bytes buffered, the callback
still calls `send` — exactly once, with the empty byte sequence — and, when
that send succeeds, still issues the (50, 50, 20) blink request: neither is
conditioned on the drained data being non-empty. -/
theorem uart_cb_empty_data_still_forwards (sendResult : Bytes → Option Nat) :
    sendCalls (uart_cb [] sendResult) = [[]]
  ∧ ∀ n, sendResult [] = some n →
      blinkReqs (uart_cb [] sendResult) = [(50, 50, 20)] := by
  constructor
  · rcases h : sendResult [] with _ | n <;> simp [uart_cb, sendCalls, h]
  · intro n h
    simp [uart_cb, blinkReqs, h]

/-- Witness for `uart_cb_empty_data_still_forwards`: a send oracle that
accepts the empty sequence and reports 0 bytes sent. -/
theorem uart_cb_empty_data_still_forwards_witness :
    sendCalls (uart_cb [] (fun _ => some 0)) = [[]]
  ∧ blinkReqs (uart_cb [] (fun _ => some 0)) = [(50, 50, 20)] :=
  ⟨(uart_cb_empty_data_still_forwards (fun _ => some 0)).1,
   (uart_cb_empty_data_still_forwards (fun _ => some 0)).2 0 rfl⟩

/-- State of the LED-blink machinery of the `Demo` object:
`ledBlinkThreadId` models `self.__led_blink_thread_id` (`none` is Python's
`None`), `nextThreadId` is the id the thread runtime hands out next
(`_thread.start_new_thread` returns positive ids, so the supply starts at 1),
and `spawned` records every blink task ever started, as
(thread id, on-duration, off-duration, repeat count) in spawn order. -/
structure BlinkState where
  ledBlinkThreadId : Option Nat
  nextThreadId : Nat
  spawned : List (Nat × Nat × Nat × Nat)
deriving Repr, DecidableEq

/-- The `Demo.__init__` value of the LED-blink state. -/
def initBlinkState : BlinkState := ⟨none, 1, []⟩

/-- Python truthiness of `self.__led_blink_thread_id`: `None` is falsy and an
integer id is truthy exactly when it is nonzero. -/
def pyTruthyId : Option Nat → Bool
  | none => false
  | some n => n != 0

/-- Model of `Demo.blink` (lines 171-190).  `threadIsRunning` is the oracle
for `_thread.threadIsRunning` at the moment of the call.  If the stored
thread id is truthy and that thread is still running, the call returns
without starting anything; otherwise it spawns a new
`led_blink_thread_worker` task with the given durations and count and stores
its id. -/
def blink (st : BlinkState) (threadIsRunning : Nat → Bool)
    (on_remaining off_remaining count : Nat) : BlinkState :=
  if pyTruthyId st.ledBlinkThreadId && threadIsRunning (st.ledBlinkThreadId.getD 0) then
    st
  else
    { ledBlinkThreadId := some st.nextThreadId,
      nextThreadId := st.nextThreadId + 1,
      spawned := st.spawned ++ [(st.nextThreadId, on_remaining, off_remaining, count)] }

/-- Pin writes and sleeps performed by a blink task. -/
inductive LedEv
  | ledWrite (v : Nat)
  | sleepMs (ms : Nat)
deriving Repr, DecidableEq

/-- Model of the nested `led_blink_thread_worker` (lines 177-184): for
`count` cycles, drive the pin high, sleep the on-duration, drive it low,
sleep the off-duration.  The trace is a pure function of the three arguments
the task was spawned with. -/
def led_blink_thread_worker (on_remaining off_remaining : Nat) : Nat → List LedEv
  | 0 => []
  | count + 1 =>
      LedEv.ledWrite 1 :: LedEv.sleepMs on_remaining :: LedEv.ledWrite 0 ::
        LedEv.sleepMs off_remaining ::
        led_blink_thread_worker on_remaining off_remaining count

/-- C4: a blink request issued while the stored blink thread is alive is a
no-op — the state is returned unchanged, so no second task is started, every
already-spawned task keeps its recorded (on, off, count) parameters, and the
active task's behaviour is `led_blink_thread_worker` of those original
parameters.  Thread ids handed out by the model are positive, so the stored
id of a live task satisfies `t ≠ 0`. -/
theorem blink_suppressed_while_running (st : BlinkState) (threadIsRunning : Nat → Bool)
    (on_remaining off_remaining count t : Nat)
    (h1 : st.ledBlinkThreadId = some t) (h2 : t ≠ 0) (h3 : threadIsRunning t = true) :
    blink st threadIsRunning on_remaining off_remaining count = st
  ∧ (blink st threadIsRunning on_remaining off_remaining count).spawned = st.spawned := by
  have hguard :
      (pyTruthyId st.ledBlinkThreadId && threadIsRunning (st.ledBlinkThreadId.getD 0)) = true := by
    rw [h1]
    simp [pyTruthyId, h2, h3]
  refine ⟨?_, ?_⟩ <;> simp [blink, hguard]

/-- Witness for `blink_suppressed_while_running`: a state in which blink task
1 with parameters (50, 50, 20) was spawned and is still running; a new
request with different parameters changes nothing. -/
theorem blink_suppressed_while_running_witness :
    blink ⟨some 1, 2, [(1, 50, 50, 20)]⟩ (fun _ => true) 10 20 3 = ⟨some 1, 2, [(1, 50, 50, 20)]⟩ :=
  (blink_suppressed_while_running ⟨some 1, 2, [(1, 50, 50, 20)]⟩ (fun _ => true)
    10 20 3 1 rfl (by decide) rfl).1

/-- C8: a `recv` that returns the empty byte sequence without raising does
not terminate the reader loop: the iteration makes its one `recv` call,
writes the empty data to the UART, and the loop keeps processing the rest of
the script; moreover, on any script that raises no fatal receive error, the
loop makes a `recv` call for every scripted outcome — the loop never exits on
end-of-stream, only on a raised non-timeout receive error. -/
theorem reader_survives_empty_recv (w : Option Nat) (rest : List IterOutcome) :
    recvCount (sock_recv_thread_worker (IterOutcome.recvOk [] w :: rest))
        = recvCount (sock_recv_thread_worker rest) + 1
  ∧ writeCalls (sock_recv_thread_worker (IterOutcome.recvOk [] w :: rest))
        = [] :: writeCalls (sock_recv_thread_worker rest)
  ∧ ∀ script : List IterOutcome, (∀ o ∈ script, isFatal o = false) →
      recvCount (sock_recv_thread_worker script) = script.length := by
  refine ⟨?_, ?_, ?_⟩
  · cases w <;> simp [sock_recv_thread_worker, recvCount]
  · cases w <;> simp [sock_recv_thread_worker, writeCalls]
  · intro script hscript
    induction script with
    | nil => simp [sock_recv_thread_worker, recvCount]
    | cons o rest2 ih =>
      have ho : isFatal o = false := hscript o (by simp)
      have hrest : ∀ o2 ∈ rest2, isFatal o2 = false := by
        intro o2 h2
        exact hscript o2 (by simp [h2])
      cases o with
      | recvOk data w2 =>
        cases w2 <;>
          simp [sock_recv_thread_worker, recvCount, ih hrest, Nat.add_comm]
      | recvErr isOS errno =>
        have ht : (isOS && errno == 110) = true := by
          simpa [isFatal] using ho
        simp [sock_recv_thread_worker, ht, recvCount, ih hrest, Nat.add_comm]

/-- Witness for `reader_survives_empty_recv`: an orderly-close script — an
empty receive, a timeout, another empty receive — is processed in full, with
one `recv` per iteration. -/
theorem reader_survives_empty_recv_witness :
    recvCount (sock_recv_thread_worker (IterOutcome.recvOk [] (some 0) :: [IterOutcome.recvErr true 110]))
        = recvCount (sock_recv_thread_worker [IterOutcome.recvErr true 110]) + 1
  ∧ recvCount (sock_recv_thread_worker
        [IterOutcome.recvOk [] (some 0), IterOutcome.recvErr true 110, IterOutcome.recvOk [] none]) = 3 :=
  ⟨(reader_survives_empty_recv (some 0) [IterOutcome.recvErr true 110]).1,
   (reader_survives_empty_recv (some 0) []).2.2
     [IterOutcome.recvOk [] (some 0), IterOutcome.recvErr true 110, IterOutcome.recvOk [] none]
     (by decide)⟩

/-- Python scalar values as they occur in `DEMO_CONFIG`: the dict mixes
integer and string values, so the embedding keeps the distinction. -/
inductive PyVal
  | pyInt (n : Int)
  | pyStr (s : String)
deriving Repr, DecidableEq

/-- Whether a configuration value is an integer. -/
def PyVal.isInt : PyVal → Bool
  | .pyInt _ => true
  | .pyStr _ => false

/-- Whether a configuration value is a string. -/
def PyVal.isStr : PyVal → Bool
  | .pyInt _ => false
  | .pyStr _ => true

/-- The `SERVER` group of `DEMO_CONFIG` (lines 37-42). -/
structure ServerConfig where
  host : PyVal
  port : PyVal
  timeout : PyVal
  keep_alive : PyVal
deriving Repr, DecidableEq

/-- The `UART` group of `DEMO_CONFIG` (lines 43-50). -/
structure UartConfig where
  port : PyVal
  baudrate : PyVal
  bytesize : PyVal
  parity : PyVal
  stopbits : PyVal
  flowctl : PyVal
deriving Repr, DecidableEq

/-- The `LED` group of `DEMO_CONFIG` (lines 51-53). -/
structure LedConfig where
  GPIOn : PyVal
deriving Repr, DecidableEq

/-- The whole configuration record `DEMO_CONFIG` (lines 34-54). -/
structure DemoConfig where
  PROJECT_NAME : PyVal
  PROJECT_VERSION : PyVal
  SERVER : ServerConfig
  UART : UartConfig
  LED : LedConfig
deriving Repr, DecidableEq

/-- `DEMO_CONFIG` exactly as written in the source: note that the server
`port` value is the string literal `"8305"`, while every other numeric field
is an integer literal. -/
def DEMO_CONFIG : DemoConfig :=
  { PROJECT_NAME := PyVal.pyStr "QuecPython_DEMO",
    PROJECT_VERSION := PyVal.pyStr "1.0.0",
    SERVER :=
      { host := PyVal.pyStr "220.180.239.212",
        port := PyVal.pyStr "8305",
        timeout := PyVal.pyInt 5,
        keep_alive := PyVal.pyInt 5 },
    UART :=
      { port := PyVal.pyInt 2,
        baudrate := PyVal.pyInt 115200,
        bytesize := PyVal.pyInt 8,
        parity := PyVal.pyInt 0,
        stopbits := PyVal.pyInt 1,
        flowctl := PyVal.pyInt 0 },
    LED := { GPIOn := PyVal.pyInt 16 } }

/-- Integer codes of the declared parity enumeration none/odd/even, as the
UART driver encodes them: 0, 1, 2. -/
def parityCodes : List Int := [0, 1, 2]

/-- Integer codes of the declared flow-control enumeration (0 = none,
1 = hardware). -/
def flowctlCodes : List Int := [0, 1]

/-- Whether a configuration value is an integer member of an enumeration
given by its list of codes. -/
def inEnumCodes (codes : List Int) : PyVal → Bool
  | PyVal.pyInt n => codes.contains n
  | PyVal.pyStr _ => false

/-- The configuration shape exactly as the spec declares it: string host,
integer port, integer timeout and keep-alive, integer UART port, baud rate,
byte size and stop bits, parity and flow control drawn from their
enumerations, integer LED pin. -/
def declaredConfigShape (c : DemoConfig) : Bool :=
  c.SERVER.host.isStr && c.SERVER.port.isInt
    && c.SERVER.timeout.isInt && c.SERVER.keep_alive.isInt
    && c.UART.port.isInt && c.UART.baudrate.isInt && c.UART.bytesize.isInt
    && inEnumCodes parityCodes c.UART.parity && c.UART.stopbits.isInt
    && inEnumCodes flowctlCodes c.UART.flowctl
    && c.LED.GPIOn.isInt

/-- The configuration shape amended to match the source: identical to
`declaredConfigShape` except that the server `port` field is a string. -/
def amendedConfigShape (c : DemoConfig) : Bool :=
  c.SERVER.host.isStr && c.SERVER.port.isStr
    && c.SERVER.timeout.isInt && c.SERVER.keep_alive.isInt
    && c.UART.port.isInt && c.UART.baudrate.isInt && c.UART.bytesize.isInt
    && inEnumCodes parityCodes c.UART.parity && c.UART.stopbits.isInt
    && inEnumCodes flowctlCodes c.UART.flowctl
    && c.LED.GPIOn.isInt

/-- A socket object as `connect_cloud` builds it: `id` identifies the object
(`usocket.socket` calls are numbered in creation order), `peer` is the
resolved address a successful `connect` attached it to (`none` while
unconnected), and `timeoutSet`/`keepAliveSet` record whether `settimeout`
and the keep-alive `setsockopt` completed. -/
structure Sock where
  id : Nat
  peer : Option (String × Int)
  timeoutSet : Bool
  keepAliveSet : Bool
deriving Repr, DecidableEq

/-- The `Demo` object state that `connect_cloud` touches: the configuration
record, the `self.__sock` field (`none` is Python's `None`), and the id the
next created socket object receives. -/
structure DemoState where
  config : DemoConfig
  sock : Option Sock
  nextSockId : Nat
deriving Repr, DecidableEq

/-- The `Demo.__init__` value of the state: default configuration, no
socket. -/
def initDemoState : DemoState := ⟨DEMO_CONFIG, none, 1⟩

/-- Outcomes of the external calls `connect_cloud` makes.  `addrinfo` is the
result of `usocket.getaddrinfo(host, port)`, each entry reduced to its
sockaddr component `rv[i][4]` (the only part the code uses); the four flags
say whether `usocket.socket`, `sock.connect`, `sock.settimeout` and
`sock.setsockopt` return normally (`false` = the call raises). -/
structure ConnectEnv where
  addrinfo : List (String × Int)
  socketOk : Bool
  connectOk : Bool
  settimeoutOk : Bool
  setsockoptOk : Bool
deriving Repr, DecidableEq

/-- The failure the `except` clause of `connect_cloud` catches and logs,
identified by the step that raised: the explicit
`ValueError('DNS detect error ...')` raised when `getaddrinfo` returns no
result, or an exception from socket creation, `connect`, `settimeout` or
`setsockopt`. -/
inductive ConnErr
  | dns
  | create
  | connectFail
  | settimeoutFail
  | setsockoptFail
deriving Repr, DecidableEq

/-- Model of `Demo.connect_cloud` (lines 144-169).  Returns the state after
the call, whether the reader thread was spawned (`_thread.start_new_thread`
runs only in the `else` of the `try`), and the caught failure if any.  The
states mirror the assignments of the source: `self.__sock` is overwritten as
soon as `usocket.socket` returns, before `connect` is attempted, and the
`except` clause restores nothing — it only logs. -/
def connect_cloud (st : DemoState) (env : ConnectEnv) : DemoState × Bool × Option ConnErr :=
  match env.addrinfo with
  | [] => (st, false, some ConnErr.dns)
  | a :: _ =>
    match env.socketOk with
    | false => (st, false, some ConnErr.create)
    | true =>
      let st1 := { st with sock := some ⟨st.nextSockId, none, false, false⟩,
                           nextSockId := st.nextSockId + 1 }
      match env.connectOk with
      | false => (st1, false, some ConnErr.connectFail)
      | true =>
        let st2 := { st1 with sock := some ⟨st.nextSockId, some a, false, false⟩ }
        match env.settimeoutOk with
        | false => (st2, false, some ConnErr.settimeoutFail)
        | true =>
          let st3 := { st2 with sock := some ⟨st.nextSockId, some a, true, false⟩ }
          match env.setsockoptOk with
          | false => (st3, false, some ConnErr.setsockoptFail)
          | true =>
            ({ st3 with sock := some ⟨st.nextSockId, some a, true, true⟩ }, true, none)

/-- C6: when host resolution yields no addresses, `connect_cloud` fails with
the DNS error, the failure is caught at the operation boundary (it is
returned as the logged error, the state is untouched), and no reader task is
spawned. -/
theorem connect_cloud_dns_failure (st : DemoState) (env : ConnectEnv)
    (h : env.addrinfo = []) :
    connect_cloud st env = (st, false, some ConnErr.dns) := by
  unfold connect_cloud
  rw [h]

/-- Witness for `connect_cloud_dns_failure`: the initial state and an
environment whose resolution comes back empty. -/
theorem connect_cloud_dns_failure_witness :
    connect_cloud initDemoState ⟨[], true, true, true, true⟩
      = (initDemoState, false, some ConnErr.dns) :=
  connect_cloud_dns_failure initDemoState ⟨[], true, true, true, true⟩ rfl

/-- C7 counterexample: the claim that the server endpoint's port field is an
integer is false on the code — `DEMO_CONFIG` stores the string `"8305"`
there, so the record fails the declared shape. -/
theorem DEMO_CONFIG_port_is_string :
    DEMO_CONFIG.SERVER.port = PyVal.pyStr "8305"
  ∧ DEMO_CONFIG.SERVER.port.isInt = false
  ∧ declaredConfigShape DEMO_CONFIG = false :=
  ⟨rfl, rfl, rfl⟩

/-- C7 amended: `DEMO_CONFIG` has the declared shape except that the server
port field is a string (the literal `"8305"`), with parity and flow control
integer codes from their declared enumerations; and the record is immutable —
the modelled operations never change the `config` field of the state (the
UART callback, the reader loop and `blink` do not touch it at all). -/
theorem config_shape_amended_and_immutable :
    amendedConfigShape DEMO_CONFIG = true
  ∧ ∀ (st : DemoState) (env : ConnectEnv), ((connect_cloud st env).1).config = st.config := by
  refine ⟨rfl, ?_⟩
  intro st env
  rcases env with ⟨ai, sOk, cOk, tOk, kOk⟩
  cases ai <;> cases sOk <;> cases cOk <;> cases tOk <;> cases kOk <;> rfl

/-- C9 counterexample: the claim that after any post-creation failure the
stored handle is the newly created, unconnected socket is false — with a
successful `connect` and a failing `settimeout`, the stored socket is the
new object but it is connected to the resolved peer (`peer` is `some`), not
unconnected. -/
theorem connect_cloud_option_failure_keeps_connected_sock :
    (connect_cloud initDemoState ⟨[("220.180.239.212", 8305)], true, true, false, true⟩).1.sock
        = some ⟨1, some ("220.180.239.212", 8305), false, false⟩
  ∧ ((connect_cloud initDemoState ⟨[("220.180.239.212", 8305)], true, true, false, true⟩).1.sock.map
        (fun s => s.peer.isSome)) = some true
  ∧ (connect_cloud initDemoState ⟨[("220.180.239.212", 8305)], true, true, false, true⟩).2.1 = false :=
  ⟨rfl, rfl, rfl⟩

/-- C9 amended: `connect_cloud` spawns the reader task if and only if every
step succeeds (non-empty resolution, socket creation, connect, settimeout,
setsockopt); on any failure after socket creation the stored handle is not
restored to its pre-call value but keeps the newly created socket object —
which is unconnected precisely when the `connect` step itself failed — so a
later serial-to-cloud forward will attempt `send` on that socket. -/
theorem connect_cloud_spawn_iff_and_sock_kept (st : DemoState) (env : ConnectEnv) :
    ((connect_cloud st env).2.1 = true ↔
        env.addrinfo ≠ [] ∧ env.socketOk = true ∧ env.connectOk = true
          ∧ env.settimeoutOk = true ∧ env.setsockoptOk = true)
  ∧ (env.addrinfo ≠ [] → env.socketOk = true →
      (env.connectOk = false ∨ env.settimeoutOk = false ∨ env.setsockoptOk = false) →
      ∃ s : Sock, (connect_cloud st env).1.sock = some s ∧ s.id = st.nextSockId
        ∧ (s.peer = none ↔ env.connectOk = false)) := by
  rcases env with ⟨ai, sOk, cOk, tOk, kOk⟩
  cases ai <;> cases sOk <;> cases cOk <;> cases tOk <;> cases kOk <;>
    simp [connect_cloud]

/-- Witness for `connect_cloud_spawn_iff_and_sock_kept`: a fully successful
environment does spawn the reader, and a failing `connect` leaves the new id
stored with no peer. -/
theorem connect_cloud_spawn_iff_and_sock_kept_witness :
    ((connect_cloud initDemoState ⟨[("220.180.239.212", 8305)], true, true, true, true⟩).2.1 = true ↔
        ([("220.180.239.212", 8305)] : List (String × Int)) ≠ [] ∧ true = true ∧ true = true
          ∧ true = true ∧ true = true)
  ∧ ∃ s : Sock,
      (connect_cloud initDemoState ⟨[("220.180.239.212", 8305)], true, false, true, true⟩).1.sock
          = some s
        ∧ s.id = initDemoState.nextSockId ∧ (s.peer = none ↔ false = false) :=
  ⟨(connect_cloud_spawn_iff_and_sock_kept initDemoState
      ⟨[("220.180.239.212", 8305)], true, true, true, true⟩).1,
   (connect_cloud_spawn_iff_and_sock_kept initDemoState
      ⟨[("220.180.239.212", 8305)], true, false, true, true⟩).2
     (by simp) rfl (Or.inl rfl)⟩
